import Mathlib

/-!
Shallow embedding of the build-configuration assembler in
webpack.config.js of the ExportSassVarsToJS repository.

The source file builds one module-level object (the variable named
config) whose sass/scss rule already depends on the flag
isProduction computed at module load time from the environment
variable NODE_ENV, and exports a factory that, when invoked,
mutates that shared object (setting mode, and devtool when the flag
is false) and returns it.  The embedding keeps both views: the pure
value returned for a given environment, and the mutation of the
module state performed by a factory call.

Regex tests of the rules are end-anchored, so they are modelled as
suffix tests on character lists; the i flag is modelled by mapping
Char.toLower over the name first.
-/

namespace WebpackConfig

/-- The modules option object passed to css-loader, written in the
source as an object with a single field mode set to icss. -/
structure ModulesOption where
  mode : String
deriving DecidableEq

/-- Options object of the css-loader step inside the sass/scss rule:
sourceMap true, importLoaders 1, modules set to the icss option. -/
structure CssLoaderOptions where
  sourceMap : Bool
  importLoaders : Nat
  modules : Option ModulesOption
deriving DecidableEq

/-- Options object of the babel-loader step: the presets array. -/
structure BabelOptions where
  presets : List String
deriving DecidableEq

/-- The two shapes of loader option objects present in the source. -/
inductive LoaderOptions where
  | css (o : CssLoaderOptions)
  | babel (o : BabelOptions)
deriving DecidableEq

/-- One step of the use chain of a rule: the extraction loader taken
from MiniCssExtractPlugin, a loader given by name alone, or a loader
with an options object. -/
inductive UseStep where
  | miniCssExtractLoader
  | named (loader : String)
  | withOptions (loader : String) (options : LoaderOptions)
deriving DecidableEq

/-- The five regex test patterns of the rules, in source order. -/
inductive TestPattern where
  | sassScss   -- the regex \.s[ac]ss$ with the i flag
  | css        -- the regex \.css$ with the i flag
  | optDotJs   -- the regex \.?js$ with no flag
  | tsTsx      -- the regex \.(ts|tsx)$ with the i flag
  | assetExt   -- the regex \.(eot|svg|ttf|woff|woff2|png|jpg|gif)$ with the i flag
deriving DecidableEq

/-- Case folding of a file name, modelling the i flag of a regex. -/
def lowerStr (s : List Char) : List Char := s.map Char.toLower

/-- End-anchored regex match: the pattern characters are a suffix of
the file name. -/
def sfx (p s : List Char) : Bool := p.isSuffixOf s

/-- Semantics of each test pattern on a file name, given as a list of
characters.  Every regex in the source is a plain alternation of
literal endings anchored by a dollar sign, with an optional leading
dot in the plain-script pattern, so each one is a disjunction of
suffix tests; patterns with the i flag test the case-folded name. -/
def TestPattern.matches : TestPattern → List Char → Bool
  | TestPattern.sassScss, s =>
      sfx ['.', 's', 'a', 's', 's'] (lowerStr s) || sfx ['.', 's', 'c', 's', 's'] (lowerStr s)
  | TestPattern.css, s => sfx ['.', 'c', 's', 's'] (lowerStr s)
  | TestPattern.optDotJs, s => sfx ['.', 'j', 's'] s || sfx ['j', 's'] s
  | TestPattern.tsTsx, s =>
      sfx ['.', 't', 's'] (lowerStr s) || sfx ['.', 't', 's', 'x'] (lowerStr s)
  | TestPattern.assetExt, s =>
      [['.', 'e', 'o', 't'], ['.', 's', 'v', 'g'], ['.', 't', 't', 'f'],
       ['.', 'w', 'o', 'f', 'f'], ['.', 'w', 'o', 'f', 'f', '2'],
       ['.', 'p', 'n', 'g'], ['.', 'j', 'p', 'g'], ['.', 'g', 'i', 'f']].any
        (fun e => sfx e (lowerStr s))

/-- An exclude clause of a rule: a regex, as on the plain-script rule,
or an array of path strings, as on the typed-script rule. -/
inductive ExcludeClause where
  | regex (pat : String)
  | paths (ps : List String)
deriving DecidableEq

/-- A module rule, with the fields that occur across the five rules of
the source: the test pattern, an optional exclude clause, a use chain
(a single loader object is modelled as a one-element chain), an
optional bare loader name, and an optional type string. -/
structure Rule where
  test : TestPattern
  exclude : Option ExcludeClause
  use : List UseStep
  loader : Option String
  type : Option String
deriving DecidableEq

/-- The two plugins instantiated in the plugins array. -/
inductive Plugin where
  | miniCssExtract
  | htmlWebpack (template : String)
deriving DecidableEq

/-- The output section: path and the clean flag. -/
structure Output where
  path : String
  clean : Bool
deriving DecidableEq

/-- The resolve section: the alias mapping (the source field name is a
keyword here, hence aliases) and the extensions list. -/
structure ResolveConfig where
  aliases : List (String × String)
  extensions : List String
deriving DecidableEq

/-- The module section, holding the rules array. -/
structure ModuleSection where
  rules : List Rule
deriving DecidableEq

/-- The build configuration object.  mode and devtool are optional
because the module-level object carries neither until the factory
runs. -/
structure Config where
  entry : String
  output : Output
  plugins : List Plugin
  module : ModuleSection
  resolve : ResolveConfig
  mode : Option String
  devtool : Option String
deriving DecidableEq

/-- Model of the node path.resolve calls in the source, which join the
directory of the configuration file with a relative segment. -/
def pathResolve (dirname rel : String) : String := dirname ++ "/" ++ rel

/-- Abstract directory of the configuration file. -/
def dirName : String := "__dirname"

/-- stylesHandler, bound at module load time to the loader taken from
MiniCssExtractPlugin. -/
def stylesHandler : UseStep := UseStep.miniCssExtractLoader

/-- isProduction, computed at module load time: the loose equality of
process.env.NODE_ENV with the literal production.  The variable may be
unset, which compares unequal to every string. -/
def isProduction (nodeEnv : Option String) : Bool := nodeEnv == some ("production")

/-- The sass/scss rule.  Its first use step is chosen by the ternary
on isProduction evaluated while the module-level object is built. -/
def sassRule (prod : Bool) : Rule :=
  { test := TestPattern.sassScss
    exclude := none
    use := [if prod then stylesHandler else UseStep.named ("style-loader"),
            UseStep.withOptions ("css-loader")
              (LoaderOptions.css
                { sourceMap := true, importLoaders := 1,
                  modules := some { mode := "icss" } }),
            UseStep.named ("postcss-loader"),
            UseStep.named ("sass-loader")]
    loader := none
    type := none }

/-- The plain css rule: stylesHandler unconditionally, then css-loader
and postcss-loader by name, with no options objects. -/
def cssRule : Rule :=
  { test := TestPattern.css
    exclude := none
    use := [stylesHandler, UseStep.named ("css-loader"), UseStep.named ("postcss-loader")]
    loader := none
    type := none }

/-- The plain-script rule: babel-loader with its presets, excluding
node_modules.  The source writes use as a single loader object, here a
one-element chain. -/
def jsRule : Rule :=
  { test := TestPattern.optDotJs
    exclude := some (ExcludeClause.regex ("node_modules"))
    use := [UseStep.withOptions ("babel-loader")
              (LoaderOptions.babel
                { presets := ["@babel/preset-env", "@babel/preset-react"] })]
    loader := none
    type := none }

/-- The typed-script rule: bare ts-loader, excluding a path array. -/
def tsRule : Rule :=
  { test := TestPattern.tsTsx
    exclude := some (ExcludeClause.paths (["/node_modules/"]))
    use := []
    loader := some ("ts-loader")
    type := none }

/-- The image and font asset rule: type asset, no loaders. -/
def assetRule : Rule :=
  { test := TestPattern.assetExt
    exclude := none
    use := []
    loader := none
    type := some ("asset") }

/-- The module-level object named config, as built at load time: all
static sections, the five rules in source order, and neither mode nor
devtool set.  The parameter is the isProduction flag the ternary in
the sass/scss rule reads. -/
def config (prod : Bool) : Config :=
  { entry := "./src/index.js"
    output := { path := pathResolve dirName ("dist"), clean := true }
    plugins := [Plugin.miniCssExtract, Plugin.htmlWebpack ("index.html")]
    module := { rules := [sassRule prod, cssRule, jsRule, tsRule, assetRule] }
    resolve := { aliases := [("@", pathResolve dirName ("./src/"))],
                 extensions := [".tsx", ".ts", ".jsx", ".js", "..."] }
    mode := none
    devtool := none }

/-- The mutable state of the loaded module: the isProduction constant
and the shared config object. -/
structure ModuleState where
  isProduction : Bool
  config : Config
deriving DecidableEq

/-- Loading the module: read NODE_ENV once and build the module-level
object. -/
def initModule (nodeEnv : Option String) : ModuleState :=
  { isProduction := isProduction nodeEnv, config := config (isProduction nodeEnv) }

/-- The exported factory.  It branches on the stored isProduction
flag, assigns mode on the shared object (and devtool in the
non-production branch), and returns that same object: the pair is the
module state after the call together with the returned value. -/
def moduleExports (s : ModuleState) : ModuleState × Config :=
  let c :=
    if s.isProduction then
      { s.config with mode := some ("production") }
    else
      { s.config with mode := some ("development"), devtool := some ("source-map") }
  ({ s with config := c }, c)

/-- The configuration value a fresh load of the module followed by one
factory call returns, as a function of NODE_ENV. -/
def produce (nodeEnv : Option String) : Config :=
  (moduleExports (initModule nodeEnv)).2

/-- First use step of the rule whose test is the sass/scss pattern. -/
def firstSassStep (c : Config) : Option UseStep :=
  (c.module.rules.find? (fun r => decide (r.test = TestPattern.sassScss))).bind
    (fun r => r.use.head?)

/-- First use step of the rule whose test is the plain css pattern. -/
def firstCssStep (c : Config) : Option UseStep :=
  (c.module.rules.find? (fun r => decide (r.test = TestPattern.css))).bind
    (fun r => r.use.head?)

/-- Replacing the first use step of the sass/scss rule in a rule
list, leaving every other rule untouched. -/
def setSassFirstStep (step : UseStep) (rs : List Rule) : List Rule :=
  rs.map (fun r =>
    if r.test = TestPattern.sassScss then { r with use := step :: r.use.tail } else r)

/-- Whether a use step carries the icss modules option. -/
def stepHasIcss : UseStep → Bool
  | UseStep.withOptions _ (LoaderOptions.css o) =>
      match o.modules with
      | some m => decide (m.mode = "icss")
      | none => false
  | _ => false

/-- The css-loader step of the sass/scss rule, with its full options
object. -/
def sassCssLoaderStep : UseStep :=
  UseStep.withOptions ("css-loader")
    (LoaderOptions.css
      { sourceMap := true, importLoaders := 1, modules := some { mode := "icss" } })

/-- C1: when NODE_ENV is the literal production, the returned
configuration has mode production, no devtool setting, and the
sass/scss rule opens with the extraction loader. -/
theorem c1_production_mode_extract (env : Option String)
    (h : env = some ("production")) :
    (produce env).mode = some ("production") ∧ (produce env).devtool = none ∧
      firstSassStep (produce env) = some stylesHandler := by
  subst h
  decide

/-- Witness for C1 at the concrete environment value production. -/
theorem c1_production_mode_extract_witness :
    (produce (some ("production"))).mode = some ("production") ∧
      (produce (some ("production"))).devtool = none ∧
      firstSassStep (produce (some ("production"))) = some stylesHandler :=
  c1_production_mode_extract (some ("production")) rfl

/-- C2: any other value of NODE_ENV, unset included, falls through to
the development branch via the failed equality test: the factory is a
total function with no failure outcome, and the result has mode
development, devtool source-map, and the live-injection loader first
in the sass/scss rule. -/
theorem c2_development_fallthrough (env : Option String)
    (h : env ≠ some ("production")) :
    (produce env).mode = some ("development") ∧
      (produce env).devtool = some ("source-map") ∧
      firstSassStep (produce env) = some (UseStep.named ("style-loader")) := by
  have hp : isProduction env = false := by
    unfold isProduction
    exact beq_eq_false_iff_ne.mpr h
  have hinit : initModule env = { isProduction := false, config := config false } := by
    unfold initModule
    rw [hp]
  unfold produce
  rw [hinit]
  decide

/-- Witness for C2 at the unset environment value. -/
theorem c2_development_fallthrough_witness :
    (produce none).mode = some ("development") ∧
      (produce none).devtool = some ("source-map") ∧
      firstSassStep (produce none) = some (UseStep.named ("style-loader")) :=
  c2_development_fallthrough none (by decide)

/-- C3: with the module loaded under a fixed production flag, a second
factory call returns a configuration structurally identical to the
first; nothing in the assembly draws on randomness, time or
counters. -/
theorem c3_repeat_invocation_identical (prod : Bool) :
    (moduleExports (moduleExports ⟨prod, config prod⟩).1).2 =
      (moduleExports ⟨prod, config prod⟩).2 := by
  cases prod <;> decide

/-- C4 as stated is false: a factory call changes the persisted module
state, here at the concrete unset environment, because mode and
devtool are assigned on the shared module-level object. -/
theorem c4_counterexample :
    (moduleExports (initModule none)).1 ≠ initModule none := by decide

/-- C4 amended: the factory does not build the configuration fresh; it
mutates the shared module-level object and returns that same object,
so the module state visibly changes, while the returned value is still
determined by the production flag alone. -/
theorem c4_shared_mutation_value_deterministic (prod : Bool) :
    (moduleExports ⟨prod, config prod⟩).1.config = (moduleExports ⟨prod, config prod⟩).2 ∧
      (moduleExports ⟨prod, config prod⟩).1 ≠ ⟨prod, config prod⟩ := by
  refine ⟨rfl, ?_⟩
  cases prod <;> decide

/-- C5: across the two branches the rule count and the list of test
patterns agree, and rewriting the development result by setting mode
to production, clearing devtool, and swapping the first sass/scss
step to the extraction loader yields exactly the production result:
nothing else differs. -/
theorem c5_branches_differ_in_three_fields :
    ((produce (some ("production"))).module.rules.length
        = (produce none).module.rules.length) ∧
      ((produce (some ("production"))).module.rules.map Rule.test
        = (produce none).module.rules.map Rule.test) ∧
      ({ produce none with
          mode := some ("production"), devtool := none,
          module := { rules := setSassFirstStep stylesHandler (produce none).module.rules } }
        = produce (some ("production"))) := by
  refine ⟨rfl, rfl, ?_⟩
  decide

/-- C7: the loosely anchored plain-script pattern matches the name
plainjs, which ends in js with no dot separator before it. -/
theorem c7_loose_js_pattern_matches_plainjs :
    TestPattern.optDotJs.matches ['p', 'l', 'a', 'i', 'n', 'j', 's'] = true ∧
      sfx ['.', 'j', 's'] ['p', 'l', 'a', 'i', 'n', 'j', 's'] = false := by
  decide

/-- C8: in both branches the resolution alias mapping holds exactly
one entry, sending the at-sign prefix to the source directory. -/
theorem c8_single_alias_entry :
    (produce (some ("production"))).resolve.aliases
        = [("@", pathResolve dirName ("./src/"))] ∧
      (produce none).resolve.aliases = [("@", pathResolve dirName ("./src/"))] :=
  ⟨rfl, rfl⟩

/-- C9: the plain css rule opens with the extraction loader in both
branches, and the whole rule is identical across them: the branch only
swaps the first step of the sass/scss rule. -/
theorem c9_css_rule_always_extracts :
    firstCssStep (produce (some ("production"))) = some stylesHandler ∧
      firstCssStep (produce none) = some stylesHandler ∧
      (produce (some ("production"))).module.rules.find?
          (fun r => decide (r.test = TestPattern.css))
        = (produce none).module.rules.find?
          (fun r => decide (r.test = TestPattern.css)) := by
  decide

/-- C10: in the configuration returned for either flag, filtering each
rule chain for steps carrying the icss modules option leaves exactly
the css-loader step of the sass/scss rule and nothing anywhere else;
the plain css rule runs css-loader by name with no options at all. -/
theorem c10_icss_only_on_sass_rule (prod : Bool) :
    ((moduleExports ⟨prod, config prod⟩).2.module.rules.map
        (fun r => r.use.filter stepHasIcss) = [[sassCssLoaderStep], [], [], [], []]) ∧
      (((moduleExports ⟨prod, config prod⟩).2.module.rules.find?
          (fun r => decide (r.test = TestPattern.css))).map Rule.use
        = some [stylesHandler, UseStep.named ("css-loader"),
                UseStep.named ("postcss-loader")]) := by
  cases prod <;> exact ⟨rfl, rfl⟩

/-- The five test patterns in the order the rules carry them. -/
def allPatterns : List TestPattern :=
  [TestPattern.sassScss, TestPattern.css, TestPattern.optDotJs,
   TestPattern.tsTsx, TestPattern.assetExt]

/-- A suffix test succeeds exactly when the pattern is a suffix. -/
lemma sfx_eq_true_iff (p s : List Char) : sfx p s = true ↔ p <:+ s := by
  simp [sfx]

/-- Two suffixes of one list compare: one is a suffix of the other. -/
lemma suffix_or_suffix {a b s : List Char} (ha : a <:+ s) (hb : b <:+ s) :
    a <:+ b ∨ b <:+ a :=
  List.suffix_or_suffix_of_suffix ha hb

/-- Two suffixes of one list that are incomparable give a
contradiction. -/
lemma incomparable_suffixes {a b s : List Char} (ha : a <:+ s) (hb : b <:+ s)
    (hab : ¬ a <:+ b) (hba : ¬ b <:+ a) : False := by
  rcases suffix_or_suffix ha hb with h | h
  exacts [hab h, hba h]

/-- A sass/scss match forces one of the two endings on the folded
name. -/
lemma sass_suffix {s : List Char} (h : TestPattern.sassScss.matches s = true) :
    ['.', 's', 'a', 's', 's'] <:+ lowerStr s ∨ ['.', 's', 'c', 's', 's'] <:+ lowerStr s := by
  simpa [TestPattern.matches, sfx_eq_true_iff] using h

/-- A css match forces the css ending on the folded name. -/
lemma css_suffix {s : List Char} (h : TestPattern.css.matches s = true) :
    ['.', 'c', 's', 's'] <:+ lowerStr s := by
  simpa [TestPattern.matches, sfx_eq_true_iff] using h

/-- A plain-script match forces the two-letter js ending, already on
the folded name since both letters fold to themselves. -/
lemma js_suffix {s : List Char} (h : TestPattern.optDotJs.matches s = true) :
    ['j', 's'] <:+ lowerStr s := by
  have h2 : ['.', 'j', 's'] <:+ s ∨ ['j', 's'] <:+ s := by
    simpa [TestPattern.matches, sfx_eq_true_iff] using h
  have hjs : ['j', 's'] <:+ s := by
    rcases h2 with h1 | h1
    · exact List.IsSuffix.trans (by decide) h1
    · exact h1
  simpa [lowerStr] using List.IsSuffix.map Char.toLower hjs

/-- A typed-script match forces one of the two endings on the folded
name. -/
lemma ts_suffix {s : List Char} (h : TestPattern.tsTsx.matches s = true) :
    ['.', 't', 's'] <:+ lowerStr s ∨ ['.', 't', 's', 'x'] <:+ lowerStr s := by
  simpa [TestPattern.matches, sfx_eq_true_iff] using h

/-- An asset match forces one of the eight endings on the folded
name. -/
lemma asset_suffix {s : List Char} (h : TestPattern.assetExt.matches s = true) :
    ['.', 'e', 'o', 't'] <:+ lowerStr s ∨ ['.', 's', 'v', 'g'] <:+ lowerStr s ∨
      ['.', 't', 't', 'f'] <:+ lowerStr s ∨ ['.', 'w', 'o', 'f', 'f'] <:+ lowerStr s ∨
      ['.', 'w', 'o', 'f', 'f', '2'] <:+ lowerStr s ∨ ['.', 'p', 'n', 'g'] <:+ lowerStr s ∨
      ['.', 'j', 'p', 'g'] <:+ lowerStr s ∨ ['.', 'g', 'i', 'f'] <:+ lowerStr s := by
  simpa [TestPattern.matches, sfx_eq_true_iff] using h

/-- A sass/scss match rules out the other four patterns. -/
lemma sass_excl {s : List Char} (h : TestPattern.sassScss.matches s = true) :
    TestPattern.css.matches s = false ∧ TestPattern.optDotJs.matches s = false ∧
      TestPattern.tsTsx.matches s = false ∧ TestPattern.assetExt.matches s = false := by
  have hs := sass_suffix h
  refine ⟨Bool.eq_false_iff.mpr fun hc => ?_, Bool.eq_false_iff.mpr fun hj => ?_,
          Bool.eq_false_iff.mpr fun ht => ?_, Bool.eq_false_iff.mpr fun ha => ?_⟩
  · rcases hs with h1 | h1 <;>
      exact incomparable_suffixes h1 (css_suffix hc) (by decide) (by decide)
  · rcases hs with h1 | h1 <;>
      exact incomparable_suffixes h1 (js_suffix hj) (by decide) (by decide)
  · rcases hs with h1 | h1 <;> rcases ts_suffix ht with h2 | h2 <;>
      exact incomparable_suffixes h1 h2 (by decide) (by decide)
  · rcases hs with h1 | h1 <;>
      rcases asset_suffix ha with h2 | h2 | h2 | h2 | h2 | h2 | h2 | h2 <;>
      exact incomparable_suffixes h1 h2 (by decide) (by decide)

/-- A css match rules out the script, typed-script and asset
patterns. -/
lemma css_excl {s : List Char} (h : TestPattern.css.matches s = true) :
    TestPattern.optDotJs.matches s = false ∧ TestPattern.tsTsx.matches s = false ∧
      TestPattern.assetExt.matches s = false := by
  have hc := css_suffix h
  refine ⟨Bool.eq_false_iff.mpr fun hj => ?_, Bool.eq_false_iff.mpr fun ht => ?_,
          Bool.eq_false_iff.mpr fun ha => ?_⟩
  · exact incomparable_suffixes hc (js_suffix hj) (by decide) (by decide)
  · rcases ts_suffix ht with h2 | h2 <;>
      exact incomparable_suffixes hc h2 (by decide) (by decide)
  · rcases asset_suffix ha with h2 | h2 | h2 | h2 | h2 | h2 | h2 | h2 <;>
      exact incomparable_suffixes hc h2 (by decide) (by decide)

/-- A plain-script match rules out the typed-script and asset
patterns. -/
lemma js_excl {s : List Char} (h : TestPattern.optDotJs.matches s = true) :
    TestPattern.tsTsx.matches s = false ∧ TestPattern.assetExt.matches s = false := by
  have hj := js_suffix h
  refine ⟨Bool.eq_false_iff.mpr fun ht => ?_, Bool.eq_false_iff.mpr fun ha => ?_⟩
  · rcases ts_suffix ht with h2 | h2 <;>
      exact incomparable_suffixes hj h2 (by decide) (by decide)
  · rcases asset_suffix ha with h2 | h2 | h2 | h2 | h2 | h2 | h2 | h2 <;>
      exact incomparable_suffixes hj h2 (by decide) (by decide)

/-- A typed-script match rules out the asset pattern. -/
lemma ts_excl {s : List Char} (h : TestPattern.tsTsx.matches s = true) :
    TestPattern.assetExt.matches s = false := by
  have ht := ts_suffix h
  refine Bool.eq_false_iff.mpr fun ha => ?_
  rcases ht with h1 | h1 <;>
    rcases asset_suffix ha with h2 | h2 | h2 | h2 | h2 | h2 | h2 | h2 <;>
    exact incomparable_suffixes h1 h2 (by decide) (by decide)

/-- C6: no file name is matched by two distinct rule patterns — over
every character list, filtering the five patterns for a match keeps at
most one — and in both branches the assembled rule sequence carries
exactly these patterns in source order. -/
theorem c6_rules_disjoint_and_ordered :
    (∀ s : List Char, (allPatterns.filter (fun p => p.matches s)).length ≤ 1) ∧
      (∀ prod : Bool,
        (moduleExports ⟨prod, config prod⟩).2.module.rules.map Rule.test = allPatterns) := by
  constructor
  · intro s
    by_cases h1 : TestPattern.sassScss.matches s = true
    · obtain ⟨e2, e3, e4, e5⟩ := sass_excl h1
      simp [allPatterns, h1, e2, e3, e4, e5]
    · have h1f : TestPattern.sassScss.matches s = false := Bool.eq_false_iff.mpr h1
      by_cases h2 : TestPattern.css.matches s = true
      · obtain ⟨e3, e4, e5⟩ := css_excl h2
        simp [allPatterns, h1f, h2, e3, e4, e5]
      · have h2f : TestPattern.css.matches s = false := Bool.eq_false_iff.mpr h2
        by_cases h3 : TestPattern.optDotJs.matches s = true
        · obtain ⟨e4, e5⟩ := js_excl h3
          simp [allPatterns, h1f, h2f, h3, e4, e5]
        · have h3f : TestPattern.optDotJs.matches s = false := Bool.eq_false_iff.mpr h3
          by_cases h4 : TestPattern.tsTsx.matches s = true
          · have e5 := ts_excl h4
            simp [allPatterns, h1f, h2f, h3f, h4, e5]
          · have h4f : TestPattern.tsTsx.matches s = false := Bool.eq_false_iff.mpr h4
            cases h5 : TestPattern.assetExt.matches s <;>
              simp [allPatterns, h1f, h2f, h3f, h4f, h5]
  · intro prod
    cases prod <;> rfl

end WebpackConfig
